import Mathlib

/-!
Verification of the startup-investment dashboard (`app.py`).

The script loads a CSV of startup records, normalizes two numeric columns,
filters the rows by a five-clause conjunctive predicate built from sidebar
selections, and renders a fixed set of aggregate views of the filtered
subset.  This file embeds the data model, the loader normalization, the
filter engine, the aggregators and the rendering control flow as
executable Lean definitions and proves the specification's claims about
them.
-/

namespace StartupDashboard

/-- A normalized startup record, as produced by `load_data`.
Categorical text columns may hold missing values (`none`, pandas `NaN`);
the two numeric columns are total after normalization. -/
structure Record where
  name : String
  market : Option String
  country_code : Option String
  status : Option String
  founded_year : Int
  funding_total_usd : ℚ
  funding_rounds : Option Int
  homepage_url : Option String
  deriving DecidableEq, Repr

/-- A raw CSV row as seen by `load_data` before normalization.  The two
numeric cells are represented by the outcome of `pd.to_numeric(...,
errors="coerce")`: `some q` when the cell parses to the number `q`,
`none` when the cell is missing or unparseable (pandas `NaN`). -/
structure RawRecord where
  name : String
  market : Option String
  country_code : Option String
  status : Option String
  founded_year : Option ℚ
  funding_total_usd : Option ℚ
  funding_rounds : Option Int
  homepage_url : Option String
  deriving DecidableEq, Repr

/-- Truncation of a rational toward zero, the behaviour of
`astype(int)` on a float column. -/
def ratTrunc (q : ℚ) : Int := Int.tdiv q.num q.den

/-- Normalization of one row, mirroring lines 15-16 of `app.py`:
`founded_year` is coerced to a number, `NaN` filled with 0, cast to int;
`funding_total_usd` is coerced to a number with `NaN` filled with 0. -/
def load_row (rr : RawRecord) : Record :=
  { name := rr.name
    market := rr.market
    country_code := rr.country_code
    status := rr.status
    founded_year := ratTrunc (rr.founded_year.getD 0)
    funding_total_usd := rr.funding_total_usd.getD 0
    funding_rounds := rr.funding_rounds
    homepage_url := rr.homepage_url }

/-- The Loader: normalizes every row of the raw table (`load_data`). -/
def load_data (raw : List RawRecord) : List Record :=
  raw.map load_row

/-- The Filter Criteria collected from the sidebar controls.  The three
selection lists hold plain strings because the multiselect options are
drawn from `dropna().unique()` of the respective column. -/
structure Criteria where
  selected_status : List String
  selected_market : List String
  selected_country : List String
  founded_lo : Int
  founded_hi : Int
  min_funding : ℚ
  deriving DecidableEq, Repr

/-- Membership test of an optional cell in a selection list, the
behaviour of `Series.isin(selection)`: a missing value (`NaN`) is never
a member of a list of strings. -/
def optIsin (x : Option String) (sel : List String) : Bool :=
  match x with
  | none => false
  | some s => sel.contains s

/-- The five-clause conjunctive row predicate of lines 31-37 of
`app.py`: status, market and country membership, inclusive
`founded_year.between(lo, hi)`, and `funding_total_usd >= min_funding`. -/
def rowPasses (c : Criteria) (r : Record) : Bool :=
  optIsin r.status c.selected_status &&
  optIsin r.market c.selected_market &&
  optIsin r.country_code c.selected_country &&
  (decide (c.founded_lo ≤ r.founded_year) && decide (r.founded_year ≤ c.founded_hi)) &&
  decide (c.min_funding ≤ r.funding_total_usd)

/-- The Filter Engine: boolean-mask selection of the rows satisfying the
conjunctive predicate (`filtered_df`). -/
def filtered_df (df : List Record) (c : Criteria) : List Record :=
  df.filter (rowPasses c)

/-! ### Grouping and sorting machinery

`groupby(key)` forms one group per distinct non-missing key, keys in
ascending order; `sort_values(ascending=False)` reorders a keyed series
by descending value; `head(n)` truncates to the first `n` entries. -/

/-- Byte-wise comparison of character lists, the lexicographic order
used when sorting the distinct key strings of a groupby. -/
def charsLe : List Char → List Char → Bool
  | [], _ => true
  | _ :: _, [] => false
  | a :: as, b :: bs =>
      if a = b then charsLe as bs else decide (a.toNat < b.toNat)

/-- Lexicographic string order as a proposition (for `insertionSort`). -/
def strLe (a b : String) : Prop := charsLe a.data b.data = true

instance : DecidableRel strLe := fun a b => Bool.decEq (charsLe a.data b.data) true

/-- Distinct keys of a groupby, in ascending order. -/
def sortKeysAsc (l : List String) : List String :=
  List.insertionSort strLe l

/-- Descending order on keyed values: `a` precedes `b` when `a`'s value
is at least `b`'s (`sort_values(ascending=False)`). -/
def descVal {α β : Type} [LinearOrder β] (a b : α × β) : Prop := b.2 ≤ a.2

instance {α β : Type} [li : LinearOrder β] : DecidableRel (@descVal α β li) :=
  fun a b => inferInstanceAs (Decidable (b.2 ≤ a.2))

instance {α β : Type} [li : LinearOrder β] : IsTotal (α × β) (@descVal α β li) :=
  ⟨fun a b => le_total b.2 a.2⟩

instance {α β : Type} [li : LinearOrder β] : IsTrans (α × β) (@descVal α β li) :=
  ⟨fun _ _ _ h1 h2 => le_trans h2 h1⟩

/-- Reorder a keyed series by descending value. -/
def sortValDesc {α β : Type} [LinearOrder β] (l : List (α × β)) : List (α × β) :=
  List.insertionSort descVal l

/-! ### The seven aggregators (aggregates only; charts are presentation) -/

/-- Rows of the view belonging to one market group. -/
def marketObs (fd : List Record) (m : String) : List Record :=
  fd.filter (fun r => r.market == some m)

/-- Total funding of one market group (`groupby('market')[...].sum()`). -/
def marketSum (fd : List Record) (m : String) : ℚ :=
  ((marketObs fd m).map Record.funding_total_usd).sum

/-- Row count of one market group. -/
def marketCount (fd : List Record) (m : String) : ℕ :=
  (marketObs fd m).length

/-- The distinct non-missing markets of the view, ascending
(`groupby` drops missing keys and sorts the group keys). -/
def marketKeys (fd : List Record) : List String :=
  sortKeysAsc (fd.filterMap Record.market).dedup

/-- Aggregator 1 (`top_markets`, line 69): group by market, sum funding,
sort descending, take the top 10. -/
def top_markets (fd : List Record) : List (String × ℚ) :=
  (sortValDesc ((marketKeys fd).map (fun m => (m, marketSum fd m)))).take 10

/-- Aggregator 2 (`yearly_funding`, line 82): group by founded year, sum
funding, natural (ascending) year order. -/
def yearly_funding (fd : List Record) : List (Int × ℚ) :=
  (List.insertionSort (fun a b : Int => a ≤ b) (fd.map Record.founded_year).dedup).map
    (fun y => (y, ((fd.filter (fun r => r.founded_year == y)).map Record.funding_total_usd).sum))

/-- Aggregator 3 (`country_counts`, line 96): `value_counts()` of the
country column (missing values dropped), descending, top 7. -/
def country_counts (fd : List Record) : List (String × ℕ) :=
  (sortValDesc
    ((sortKeysAsc (fd.filterMap Record.country_code).dedup).map
      (fun cc => (cc, (fd.filter (fun r => r.country_code == some cc)).length)))).take 7

/-- Aggregator 6 (`avg_funding`, line 137): group by market, mean
funding, sort descending, take the top 7. -/
def avg_funding (fd : List Record) : List (String × ℚ) :=
  (sortValDesc
    ((marketKeys fd).map
      (fun m => (m, marketSum fd m / (marketCount fd m : ℚ))))).take 7

/-- Rows with a non-missing status: `groupby(['market', 'status'])`
keeps only rows where both keys are present. -/
def statusRows (fd : List Record) : List Record :=
  fd.filter (fun r => r.status.isSome)

/-- Markets indexing the unstacked (market, status) count table. -/
def acqMarketKeys (fd : List Record) : List String :=
  sortKeysAsc ((statusRows fd).filterMap Record.market).dedup

/-- Rows of one market with status `"acquired"`. -/
def acqCount (fd : List Record) (m : String) : ℕ :=
  (fd.filter (fun r => r.market == some m && r.status == some ("acquired"))).length

/-- Row total of one market in the (market, status) count table
(`status_data.sum(axis=1)`): rows of that market with a present status. -/
def statusTotal (fd : List Record) (m : String) : ℕ :=
  ((statusRows fd).filter (fun r => r.market == some m)).length

/-- Aggregator 7 (`top_acq`, lines 151-153): group by (market, status),
count, per-market ratio of `"acquired"` rows to the row total, sort
descending, take the top 7. -/
def top_acq (fd : List Record) : List (String × ℚ) :=
  (sortValDesc
    ((acqMarketKeys fd).map
      (fun m => (m, (acqCount fd m : ℚ) / (statusTotal fd m : ℚ))))).take 7

/-! ### Rendering control flow -/

/-- Leading-substring test on character lists, the behaviour of
`str.startswith`: `charsStart pat s` holds when `s` begins with `pat`. -/
def charsStart : List Char → List Char → Bool
  | [], _ => true
  | _ :: _, [] => false
  | a :: as, b :: bs => a == b && charsStart as bs

/-- Model of one cell of the overview table's homepage column (line 49):
a markdown link when the cell is present and starts with `http`,
otherwise the empty string. -/
def renderHomepage (x : Option String) : String :=
  match x with
  | some s => if charsStart ("http").data s.data then "[Website](" ++ s ++ ")" else ""
  | none => ""

/-- The aggregate content of a fully rendered dashboard run. -/
structure Dashboard where
  totalStartups : ℕ
  overviewRows : List Record
  homepageCells : List String
  topMarkets : List (String × ℚ)
  yearlyFunding : List (Int × ℚ)
  countryCounts : List (String × ℕ)
  avgFunding : List (String × ℚ)
  acqView : Option (List (String × ℚ))
  deriving DecidableEq, Repr

/-- Outcome of one script run after filtering: either the "no data"
warning with `st.stop()` (lines 39-41), or the rendered dashboard. -/
inductive AppOutput where
  | noData : AppOutput
  | dashboard : Dashboard → AppOutput
  deriving DecidableEq, Repr

/-- The script body after the sidebar: filter, stop on an empty view,
otherwise compute every aggregate view; the acquisition-rate view is
computed only when an `"acquired"` status occurs in the view (line 149),
otherwise it is `none` (the informational notice). -/
def renderApp (df : List Record) (c : Criteria) : AppOutput :=
  let fd := filtered_df df c
  if fd.isEmpty then AppOutput.noData
  else AppOutput.dashboard
    { totalStartups := fd.length
      overviewRows := fd.take 20
      homepageCells := ((fd.map (fun r => renderHomepage r.homepage_url)).take 20)
      topMarkets := top_markets fd
      yearlyFunding := yearly_funding fd
      countryCounts := country_counts fd
      avgFunding := avg_funding fd
      acqView :=
        if fd.any (fun r => r.status == some ("acquired"))
        then some (top_acq fd) else none }

/-- The acquisition view of an outcome: `none` when the run stopped with
the warning, otherwise the (possibly skipped) acquisition-rate view. -/
def acqViewOf : AppOutput → Option (Option (List (String × ℚ)))
  | AppOutput.noData => none
  | AppOutput.dashboard d => some d.acqView

/-- The homepage cells of an outcome, when a dashboard was rendered. -/
def cellsOf : AppOutput → Option (List String)
  | AppOutput.noData => none
  | AppOutput.dashboard d => some d.homepageCells

/-! ### Concrete data used to instantiate the theorems -/

/-- The first record of the spec's worked example: a USA software
startup, operating, founded 2010, funded 2,000,000. -/
def exRow1 : Record :=
  { name := "Alpha"
    market := some ("software")
    country_code := some ("USA")
    status := some ("operating")
    founded_year := 2010
    funding_total_usd := 2000000
    funding_rounds := none
    homepage_url := none }

/-- The second record of the spec's worked example: a GBR software
startup, acquired, founded 2010, funded 500,000. -/
def exRow2 : Record :=
  { name := "Beta"
    market := some ("software")
    country_code := some ("GBR")
    status := some ("acquired")
    founded_year := 2010
    funding_total_usd := 500000
    funding_rounds := none
    homepage_url := none }

/-- The spec's worked-example dataset. -/
def exDF : List Record := [exRow1, exRow2]

/-- The spec's worked-example criteria: every status, every market,
country USA only, founded 2005-2015, at least 1,000,000 of funding. -/
def exCriteria : Criteria :=
  { selected_status := ["acquired", "operating"]
    selected_market := ["software"]
    selected_country := ["USA"]
    founded_lo := 2005
    founded_hi := 2015
    min_funding := 1000000 }

/-! ### Shared lemmas about the Filter Engine -/

/-- Unfolding of the boolean row predicate into its five clauses. -/
theorem rowPasses_iff {c : Criteria} {r : Record} :
    rowPasses c r = true ↔
      optIsin r.status c.selected_status = true ∧
      optIsin r.market c.selected_market = true ∧
      optIsin r.country_code c.selected_country = true ∧
      (c.founded_lo ≤ r.founded_year ∧ r.founded_year ≤ c.founded_hi) ∧
      c.min_funding ≤ r.funding_total_usd := by
  simp [rowPasses, Bool.and_eq_true, and_assoc]

/-- Membership in the Filter Engine's output. -/
theorem mem_filtered_iff {df : List Record} {c : Criteria} {r : Record} :
    r ∈ filtered_df df c ↔ r ∈ df ∧ rowPasses c r = true :=
  List.mem_filter

/-- Every row of a Filtered View has a present (non-missing) status,
market and country: `isin` never accepts a missing value. -/
theorem filtered_no_missing {df : List Record} {c : Criteria} {r : Record}
    (h : r ∈ filtered_df df c) :
    r.status ≠ none ∧ r.market ≠ none ∧ r.country_code ≠ none := by
  obtain ⟨-, hp⟩ := mem_filtered_iff.mp h
  obtain ⟨hs, hm, hc, -⟩ := rowPasses_iff.mp hp
  refine ⟨fun hn => ?_, fun hn => ?_, fun hn => ?_⟩
  · rw [hn] at hs; simp [optIsin] at hs
  · rw [hn] at hm; simp [optIsin] at hm
  · rw [hn] at hc; simp [optIsin] at hc

/-! ### C1, C2, C7, C10: the Filter Engine -/

/-- C1: a row is in the Filtered View iff it is a row of the Dataset
satisfying the conjunction of all five clauses: status, market and
country membership, founded year within the inclusive range, and
funding at least the threshold. -/
theorem c1_filter_conjunction (df : List Record) (c : Criteria) (r : Record) :
    r ∈ filtered_df df c ↔
      r ∈ df ∧
      optIsin r.status c.selected_status = true ∧
      optIsin r.market c.selected_market = true ∧
      optIsin r.country_code c.selected_country = true ∧
      (c.founded_lo ≤ r.founded_year ∧ r.founded_year ≤ c.founded_hi) ∧
      c.min_funding ≤ r.funding_total_usd := by
  rw [mem_filtered_iff, rowPasses_iff]

/-- C2: the Filtered View is a subset of the Dataset (its row count is
at most the Dataset's) and each of its rows satisfies all five
predicate clauses. -/
theorem c2_filtered_subset (df : List Record) (c : Criteria) :
    (filtered_df df c).length ≤ df.length ∧
    ∀ r ∈ filtered_df df c,
      optIsin r.status c.selected_status = true ∧
      optIsin r.market c.selected_market = true ∧
      optIsin r.country_code c.selected_country = true ∧
      (c.founded_lo ≤ r.founded_year ∧ r.founded_year ≤ c.founded_hi) ∧
      c.min_funding ≤ r.funding_total_usd :=
  ⟨List.length_filter_le _ _,
   fun _ hr => rowPasses_iff.mp (mem_filtered_iff.mp hr).2⟩

/-- C2 witness: the subset bound and the clauses hold for the worked
example's surviving row. -/
theorem c2_filtered_subset_witness :
    (filtered_df exDF exCriteria).length ≤ exDF.length ∧
    (optIsin exRow1.status exCriteria.selected_status = true ∧
     optIsin exRow1.market exCriteria.selected_market = true ∧
     optIsin exRow1.country_code exCriteria.selected_country = true ∧
     (exCriteria.founded_lo ≤ exRow1.founded_year ∧
      exRow1.founded_year ≤ exCriteria.founded_hi) ∧
     exCriteria.min_funding ≤ exRow1.funding_total_usd) :=
  ⟨(c2_filtered_subset exDF exCriteria).1,
   (c2_filtered_subset exDF exCriteria).2 exRow1 (by decide)⟩

/-- C7: the Filter Engine is idempotent; re-filtering a Filtered View
with the same criteria leaves it unchanged. -/
theorem c7_filter_idempotent (df : List Record) (c : Criteria) :
    filtered_df (filtered_df df c) c = filtered_df df c := by
  simp [filtered_df, List.filter_filter]

/-- C10: a record whose status, market or country code is missing never
appears in a Filtered View, whatever the selections are. -/
theorem c10_missing_never_selected (df : List Record) (c : Criteria) (r : Record)
    (h : r ∈ filtered_df df c) :
    r.status ≠ none ∧ r.market ≠ none ∧ r.country_code ≠ none :=
  filtered_no_missing h

/-- C10 witness: the surviving worked-example row indeed has all three
categorical fields present. -/
theorem c10_missing_never_selected_witness :
    exRow1.status ≠ none ∧ exRow1.market ≠ none ∧ exRow1.country_code ≠ none :=
  c10_missing_never_selected exDF exCriteria exRow1 (by decide)

/-! ### C3: the empty view is a terminal state -/

/-- C3: the run ends in the bare "no data" warning exactly when the
Filtered View is empty; in that case no aggregate view is computed and
the warning is the whole output. -/
theorem c3_empty_view_warns_and_stops (df : List Record) (c : Criteria) :
    renderApp df c = AppOutput.noData ↔ filtered_df df c = [] := by
  constructor
  · intro h
    by_cases he : (filtered_df df c).isEmpty
    · exact List.isEmpty_iff.mp he
    · simp [renderApp, he] at h
  · intro h
    simp [renderApp, h]

/-! ### Sortedness and truncation of the value-sorted aggregators -/

/-- The value-descending reordering is pairwise non-increasing. -/
theorem sortValDesc_sorted {α β : Type} [LinearOrder β] (l : List (α × β)) :
    List.Pairwise (fun a b : α × β => b.2 ≤ a.2) (sortValDesc l) :=
  List.sorted_insertionSort descVal l

/-- Truncating the value-descending reordering stays non-increasing. -/
theorem topN_sorted {α β : Type} [LinearOrder β] (l : List (α × β)) (n : ℕ) :
    List.Pairwise (fun a b : α × β => b.2 ≤ a.2) ((sortValDesc l).take n) :=
  List.Pairwise.sublist (List.take_sublist n _) (sortValDesc_sorted l)

/-- The truncated series has at most `n` entries. -/
theorem topN_length {α β : Type} [LinearOrder β] (l : List (α × β)) (n : ℕ) :
    ((sortValDesc l).take n).length ≤ n := by
  rw [List.length_take]; exact min_le_left _ _

/-! ### C4: order of the four value-sorted aggregators -/

/-- A record in market `"a"`, used to exhibit a tie. -/
def cexRowA : Record :=
  { name := "TieA"
    market := some ("a")
    country_code := some ("USA")
    status := some ("operating")
    founded_year := 2010
    funding_total_usd := 5
    funding_rounds := none
    homepage_url := none }

/-- A record in market `"b"` with the same funding as `cexRowA`. -/
def cexRowB : Record :=
  { name := "TieB"
    market := some ("b")
    country_code := some ("USA")
    status := some ("operating")
    founded_year := 2010
    funding_total_usd := 5
    funding_rounds := none
    homepage_url := none }

/-- Two-row dataset whose two markets have equal total funding. -/
def cexDF : List Record := [cexRowA, cexRowB]

/-- Criteria that every row of `cexDF` satisfies. -/
def cexCriteria : Criteria :=
  { selected_status := ["operating"]
    selected_market := ["a", "b"]
    selected_country := ["USA"]
    founded_lo := 2000
    founded_hi := 2020
    min_funding := 0 }

/-- C4 counterexample: on the Filtered View holding `cexDF`'s two rows,
the two markets tie at total funding 5, so the top-markets aggregate is
not sorted strictly descending by its reduction value. -/
theorem c4_counterexample :
    ¬ List.Pairwise (fun a b : String × ℚ => b.2 < a.2)
        (top_markets (filtered_df cexDF cexCriteria)) := by
  have hf : filtered_df cexDF cexCriteria = [cexRowA, cexRowB] := by decide
  have hm : top_markets (filtered_df cexDF cexCriteria) = [("a", (5 : ℚ)), ("b", 5)] := by
    rw [hf]
    norm_num [top_markets, marketKeys, marketSum, marketObs, sortKeysAsc, sortValDesc,
      cexRowA, cexRowB, List.insertionSort, List.orderedInsert, List.dedup, strLe,
      charsLe, descVal, List.filter_cons, List.filter_nil, List.map_cons, List.map_nil,
      List.sum_cons, List.sum_nil, beq_iff_eq,
      show ("a" : String) ≠ "b" from by decide, show ("b" : String) ≠ "a" from by decide]
  rw [hm]
  decide

/-- C4 amended: aggregators 1, 3, 6 and 7 return series sorted in
non-increasing (weakly descending) order of their reduction value
(ties between groups keep equal adjacent values), truncated to the top
10, 7, 7 and 7 entries respectively. -/
theorem c4_amended_sorted_truncated (fd : List Record) :
    (List.Pairwise (fun a b : String × ℚ => b.2 ≤ a.2) (top_markets fd) ∧
      (top_markets fd).length ≤ 10) ∧
    (List.Pairwise (fun a b : String × ℕ => b.2 ≤ a.2) (country_counts fd) ∧
      (country_counts fd).length ≤ 7) ∧
    (List.Pairwise (fun a b : String × ℚ => b.2 ≤ a.2) (avg_funding fd) ∧
      (avg_funding fd).length ≤ 7) ∧
    (List.Pairwise (fun a b : String × ℚ => b.2 ≤ a.2) (top_acq fd) ∧
      (top_acq fd).length ≤ 7) := by
  unfold top_markets country_counts avg_funding top_acq
  exact ⟨⟨topN_sorted _ _, topN_length _ _⟩, ⟨topN_sorted _ _, topN_length _ _⟩,
    ⟨topN_sorted _ _, topN_length _ _⟩, ⟨topN_sorted _ _, topN_length _ _⟩⟩

/-! ### C5: the acquisition-rate aggregator -/

/-- Every value of the acquisition-rate series is the ratio of the
market's `"acquired"` count to its row total in the (market, status)
count table. -/
theorem top_acq_value {fd : List Record} {m : String} {q : ℚ}
    (h : (m, q) ∈ top_acq fd) :
    q = (acqCount fd m : ℚ) / (statusTotal fd m : ℚ) := by
  unfold top_acq at h
  have h1 := List.mem_of_mem_take h
  have h2 := (List.perm_insertionSort descVal _).mem_iff.mp h1
  obtain ⟨m1, -, heq⟩ := List.mem_map.mp h2
  injection heq with hk hv
  subst hk
  exact hv.symm

/-- On a Filtered View the (market, status) table's row totals coincide
with the plain per-market row counts: every filtered row has a present
status, so `groupby(['market', 'status'])` drops nothing. -/
theorem statusTotal_eq_marketCount (df : List Record) (c : Criteria) (m : String) :
    statusTotal (filtered_df df c) m = marketCount (filtered_df df c) m := by
  have hall : statusRows (filtered_df df c) = filtered_df df c :=
    List.filter_eq_self.mpr
      (fun r hr => Option.ne_none_iff_isSome.mp (filtered_no_missing hr).1)
  unfold statusTotal marketCount marketObs
  rw [hall]

/-- Order and truncation of the acquisition-rate series. -/
theorem top_acq_sorted_truncated (fd : List Record) :
    List.Pairwise (fun a b : String × ℚ => b.2 ≤ a.2) (top_acq fd) ∧
    (top_acq fd).length ≤ 7 := by
  unfold top_acq
  exact ⟨topN_sorted _ _, topN_length _ _⟩

/-- C5: when the Filtered View is nonempty, the acquisition-rate view
is rendered exactly when some filtered record has status `"acquired"`
(otherwise it is skipped as the informational notice while the
dashboard's other views proceed); each rendered entry is the market's
`"acquired"` count divided by the market's row count, in descending
order, truncated to the top 7. -/
theorem c5_acquisition_rate (df : List Record) (c : Criteria)
    (h : filtered_df df c ≠ []) :
    ((∃ r ∈ filtered_df df c, r.status = some ("acquired")) →
        acqViewOf (renderApp df c) = some (some (top_acq (filtered_df df c)))) ∧
    ((∀ r ∈ filtered_df df c, r.status ≠ some ("acquired")) →
        acqViewOf (renderApp df c) = some none) ∧
    (∀ m q, (m, q) ∈ top_acq (filtered_df df c) →
        q = (acqCount (filtered_df df c) m : ℚ) /
            (marketCount (filtered_df df c) m : ℚ)) ∧
    List.Pairwise (fun a b : String × ℚ => b.2 ≤ a.2) (top_acq (filtered_df df c)) ∧
    (top_acq (filtered_df df c)).length ≤ 7 := by
  have he : (filtered_df df c).isEmpty = false := by
    cases hfe : (filtered_df df c).isEmpty
    · rfl
    · exact absurd (List.isEmpty_iff.mp hfe) h
  refine ⟨?_, ?_, ?_, ?_, ?_⟩
  · intro ⟨r, hr, hs⟩
    have hany : (filtered_df df c).any (fun r => r.status == some ("acquired")) = true :=
      List.any_eq_true.mpr ⟨r, hr, by simp [hs]⟩
    simp [renderApp, he, acqViewOf, hany]
  · intro hnone
    have hany : (filtered_df df c).any (fun r => r.status == some ("acquired")) = false := by
      rw [← Bool.not_eq_true, List.any_eq_true]
      rintro ⟨r, hr, hs⟩
      exact hnone r hr (by simpa using hs)
    simp [renderApp, he, acqViewOf, hany]
  · intro m q hm
    rw [top_acq_value hm, statusTotal_eq_marketCount]
  · exact (top_acq_sorted_truncated (filtered_df df c)).1
  · exact (top_acq_sorted_truncated (filtered_df df c)).2

/-- A record surviving its criteria with status `"acquired"`. -/
def wRow : Record :=
  { name := "Gamma"
    market := some ("fintech")
    country_code := some ("USA")
    status := some ("acquired")
    founded_year := 2010
    funding_total_usd := 5
    funding_rounds := none
    homepage_url := none }

/-- One-row dataset containing an acquired startup. -/
def wDF : List Record := [wRow]

/-- Criteria that `wRow` satisfies. -/
def wCriteria : Criteria :=
  { selected_status := ["acquired"]
    selected_market := ["fintech"]
    selected_country := ["USA"]
    founded_lo := 2000
    founded_hi := 2020
    min_funding := 0 }

/-- C5 witness: with an acquired row in the view, the rendered dashboard
carries the acquisition-rate series. -/
theorem c5_acquisition_rate_witness :
    acqViewOf (renderApp wDF wCriteria) =
      some (some (top_acq (filtered_df wDF wCriteria))) :=
  (c5_acquisition_rate wDF wCriteria (by decide)).1 ⟨wRow, by decide, rfl⟩

/-! ### C6: Loader normalization -/

/-- A raw row whose numeric cells parse to negative numbers. -/
def badRaw : RawRecord :=
  { name := "Bad"
    market := none
    country_code := none
    status := none
    founded_year := some (-3)
    funding_total_usd := some (-5)
    funding_rounds := none
    homepage_url := none }

/-- A raw row whose numeric cells fail to parse (`NaN` after coercion). -/
def goodRaw : RawRecord :=
  { name := "Blank"
    market := some ("software")
    country_code := some ("USA")
    status := some ("operating")
    founded_year := none
    funding_total_usd := none
    funding_rounds := none
    homepage_url := none }

/-- C6 counterexample: normalization preserves a parseable negative
cell, so the loaded fields are not always non-negative — on `badRaw`
the loaded year is `-3` and the loaded funding is `-5`. -/
theorem c6_counterexample :
    ¬ ∀ r ∈ load_data [badRaw], 0 ≤ r.founded_year ∧ 0 ≤ r.funding_total_usd := by
  decide

/-- C6 amended: after Loader normalization both numeric fields always
hold a concrete number (never missing); a cell whose numeric parse
fails becomes exactly 0 rather than aborting the load, so a parse
failure never yields a negative value, and a non-negative parsed cell
stays non-negative.  (A cell parsing to a negative number is kept
negative, which is why flat non-negativity fails.) -/
theorem c6_amended_normalization (raw : List RawRecord) (rr : RawRecord)
    (h : rr ∈ raw) :
    load_row rr ∈ load_data raw ∧
    (rr.founded_year = none → (load_row rr).founded_year = 0) ∧
    (rr.funding_total_usd = none → (load_row rr).funding_total_usd = 0) ∧
    (0 ≤ rr.founded_year.getD 0 → 0 ≤ (load_row rr).founded_year) ∧
    (0 ≤ rr.funding_total_usd.getD 0 → 0 ≤ (load_row rr).funding_total_usd) := by
  refine ⟨List.mem_map_of_mem load_row h, ?_, ?_, ?_, ?_⟩
  · intro h0; simp [load_row, h0, ratTrunc]
  · intro h0; simp [load_row, h0]
  · intro h0
    have hnum : 0 ≤ (rr.founded_year.getD 0).num := Rat.num_nonneg.mpr h0
    have hden : (0 : Int) ≤ (rr.founded_year.getD 0).den := Int.ofNat_nonneg _
    exact Int.tdiv_nonneg hnum hden
  · intro h0; exact h0

/-- C6 witness: a row with two unparseable numeric cells loads with both
fields 0. -/
theorem c6_amended_normalization_witness :
    (load_row goodRaw).founded_year = 0 :=
  (c6_amended_normalization [goodRaw] goodRaw (by decide)).2.1 rfl

/-! ### C8: the spec's worked example -/

/-- A nonempty list's `isEmpty` is `false`. -/
theorem isEmpty_false_of_ne_nil {α : Type} {l : List α} (h : l ≠ []) :
    l.isEmpty = false := by
  cases hfe : l.isEmpty
  · rfl
  · exact absurd (List.isEmpty_iff.mp hfe) h

/-- C8: on the worked-example dataset and criteria, the Filtered View is
exactly the first row, the top-markets aggregate maps `"software"` to
2,000,000, and the acquisition-rate view is skipped (the dashboard is
rendered with that view absent) because no acquired row survives. -/
theorem c8_worked_example :
    filtered_df exDF exCriteria = [exRow1] ∧
    top_markets (filtered_df exDF exCriteria) = [("software", 2000000)] ∧
    acqViewOf (renderApp exDF exCriteria) = some none := by
  have hf : filtered_df exDF exCriteria = [exRow1] := by decide
  refine ⟨hf, ?_, ?_⟩
  · rw [hf]
    norm_num [top_markets, marketKeys, marketSum, marketObs, sortKeysAsc, sortValDesc,
      exRow1, List.insertionSort, List.orderedInsert, List.dedup, strLe, charsLe,
      descVal, List.filter_cons, List.filter_nil, List.map_cons, List.map_nil,
      List.sum_cons, List.sum_nil, beq_iff_eq]
  · have hany : (filtered_df exDF exCriteria).any
        (fun r => r.status == some ("acquired")) = false := by decide
    have he : (filtered_df exDF exCriteria).isEmpty = false := by rw [hf]; rfl
    simp [renderApp, acqViewOf, he, hany]

/-! ### C9: rendering of the homepage column -/

/-- Modelled from the spec: "homepage_url rendered as a clickable link
only when it is a well-formed http(s) string" — a string carrying the
full `http://` or `https://` scheme at its start. -/
def specWellFormedHttp (s : String) : Bool :=
  charsStart ("http://").data s.data || charsStart ("https://").data s.data

/-- C9 counterexample: the overview renders a clickable link for the
cell value `"httpfoo"`, which is not a well-formed http(s) string — the
code tests only `startswith('http')`. -/
theorem c9_counterexample :
    specWellFormedHttp ("httpfoo") = false ∧
    renderHomepage (some ("httpfoo")) = "[Website](httpfoo)" := by
  decide

/-- C9 amended: in the overview table of the first 20 filtered rows, a
homepage cell is rendered as a markdown link exactly when the value is
present and starts with `"http"` (covering `https` as well); every
other value — missing, or text without that leading substring — renders
as the empty string. -/
theorem c9_amended_homepage (df : List Record) (c : Criteria)
    (h : filtered_df df c ≠ []) :
    cellsOf (renderApp df c) =
      some (((filtered_df df c).map
        (fun r => renderHomepage r.homepage_url)).take 20) ∧
    (∀ s : String, charsStart ("http").data s.data = true →
        renderHomepage (some s) = "[Website](" ++ s ++ ")") ∧
    (∀ s : String, charsStart ("http").data s.data = false →
        renderHomepage (some s) = "") ∧
    renderHomepage none = "" := by
  have he := isEmpty_false_of_ne_nil h
  refine ⟨by simp [renderApp, cellsOf, he], ?_, ?_, rfl⟩
  · intro s hs; simp [renderHomepage, hs]
  · intro s hs; simp [renderHomepage, hs]

/-- C9 witness: the one-row view renders its missing homepage cell as
the empty string. -/
theorem c9_amended_homepage_witness :
    cellsOf (renderApp wDF wCriteria) =
      some (((filtered_df wDF wCriteria).map
        (fun r => renderHomepage r.homepage_url)).take 20) :=
  (c9_amended_homepage wDF wCriteria (by decide)).1

end StartupDashboard
